import Mathlib

/-!
Verification of the DTN simulator engine (`src/dtn_core.py`, `src/space.py`,
`src/military.py`) against its natural-language specification.

The Python code is shallowly embedded: the mutable `Packet`, `Buffer` and
`Node` objects become immutable structures, and each mutating method becomes
a function returning the updated structure together with the method's return
value.  The `created_at` wall-clock timestamp and the single-variant
`packet_type` field play no role in any property considered here and are
omitted; the `uuid`-generated `packet_id` is threaded in as an explicit
argument where a packet is created.  The delivery callback `on_receive` is
modelled by a boolean field `has_on_receive` (whether a callback is
installed) plus an explicit `callback_invoked` component of the result of
`receive_packet`.
-/

namespace DTN

/-- Embedding of the `Packet` dataclass of `dtn_core.py` (identity, endpoints,
payload, and the ordered hop history). -/
structure Packet where
  source : String
  destination : String
  payload : String
  packet_id : String
  hops : List String
deriving DecidableEq, Repr

/-- The method `Packet.add_hop`: appends a node id to the hop list. -/
def Packet.add_hop (p : Packet) (node_id : String) : Packet :=
  { p with hops := p.hops ++ [node_id] }

/-- Embedding of the `Buffer` class of `dtn_core.py`: a bounded FIFO queue.
The Python `deque` is modelled as a list with its front at the head. -/
structure Buffer where
  max_size : Nat
  queue : List Packet
deriving DecidableEq, Repr

/-- The property `Buffer.size`: number of buffered packets. -/
def Buffer.size (b : Buffer) : Nat := b.queue.length

/-- The property `Buffer.is_empty`. -/
def Buffer.is_empty (b : Buffer) : Bool := decide (b.size = 0)

/-- The property `Buffer.is_full`: `size >= max_size`. -/
def Buffer.is_full (b : Buffer) : Bool := decide (b.max_size ≤ b.size)

/-- The method `Buffer.enqueue`: returns the updated buffer and the boolean
result (`False` when full, otherwise appends and returns `True`). -/
def Buffer.enqueue (b : Buffer) (p : Packet) : Buffer × Bool :=
  if b.is_full then (b, false)
  else ({ b with queue := b.queue ++ [p] }, true)

/-- The method `Buffer.dequeue`: removes and returns the oldest packet, or
`none` when empty. -/
def Buffer.dequeue (b : Buffer) : Buffer × Option Packet :=
  match b.queue with
  | [] => (b, none)
  | p :: rest => ({ b with queue := rest }, some p)

/-- The method `Buffer.peek`: the oldest packet without removal. -/
def Buffer.peek (b : Buffer) : Option Packet := b.queue.head?

/-- The method `Buffer.clear`: drops everything, returns the old count. -/
def Buffer.clear (b : Buffer) : Buffer × Nat :=
  ({ b with queue := [] }, b.size)

/-- The `Buffer` constructor `__init__`: an empty queue with the given
capacity. -/
def Buffer.init (max_size : Nat) : Buffer := ⟨max_size, []⟩

/-- Embedding of the `Node` dataclass of `dtn_core.py`.  The `_connections`
dict is modelled as an association list from neighbor id to the in-range
flag; `has_on_receive` records whether an `on_receive` callback is set. -/
structure Node where
  node_id : String
  name : String
  buffer : Buffer
  is_online : Bool
  connections : List (String × Bool)
  has_on_receive : Bool
deriving DecidableEq, Repr

/-- The method `Node.queue_packet`: refuses when offline, otherwise delegates
to `Buffer.enqueue`. -/
def Node.queue_packet (n : Node) (p : Packet) : Node × Bool :=
  if n.is_online then
    let r := n.buffer.enqueue p
    ({ n with buffer := r.1 }, r.2)
  else (n, false)

/-- Result of `Node.receive_packet`: the updated node, the (possibly
hop-extended) packet, the boolean return value, and whether the delivery
callback was invoked. -/
structure ReceiveResult where
  node : Node
  packet : Packet
  result : Bool
  callback_invoked : Bool
deriving DecidableEq, Repr

/-- The method `Node.receive_packet`: offline nodes refuse immediately;
otherwise the node id is appended to the hop list, then either the delivery
callback fires (destination reached) or `queue_packet` is attempted. -/
def Node.receive_packet (n : Node) (p : Packet) : ReceiveResult :=
  if n.is_online then
    let p2 := p.add_hop n.node_id
    if p2.destination = n.node_id then
      ⟨n, p2, true, n.has_on_receive⟩
    else
      let q := n.queue_packet p2
      ⟨q.1, p2, q.2, false⟩
  else ⟨n, p, false, false⟩

/-- The method `Node.get_next_packet`: `none` when offline, otherwise
`Buffer.dequeue`. -/
def Node.get_next_packet (n : Node) : Node × Option Packet :=
  if n.is_online then
    let r := n.buffer.dequeue
    ({ n with buffer := r.1 }, r.2)
  else (n, none)

/-- The method `Node.peek_next_packet`: `Buffer.peek`, with no online
check. -/
def Node.peek_next_packet (n : Node) : Option Packet := n.buffer.peek

/-- The property `Node.buffer_size`. -/
def Node.buffer_size (n : Node) : Nat := n.buffer.size

/-- The method `Node.set_online`. -/
def Node.set_online (n : Node) (online : Bool) : Node :=
  { n with is_online := online }

/-- One abstract buffer operation, for stating properties quantified over
arbitrary sequences of `enqueue` / `dequeue` / `clear` calls. -/
inductive BufOp where
  | enq (p : Packet)
  | deq
  | clear
deriving DecidableEq, Repr

/-- Applying one buffer operation (discarding the returned value). -/
def Buffer.applyOp (b : Buffer) : BufOp → Buffer
  | .enq p => (b.enqueue p).1
  | .deq => b.dequeue.1
  | .clear => b.clear.1

/-- Running a sequence of buffer operations. -/
def Buffer.runOps (b : Buffer) : List BufOp → Buffer
  | [] => b
  | op :: rest => (b.applyOp op).runOps rest

lemma Buffer.applyOp_max_size (b : Buffer) (op : BufOp) :
    (b.applyOp op).max_size = b.max_size := by
  obtain ⟨m, q⟩ := b
  cases op with
  | enq p =>
    simp only [Buffer.applyOp, Buffer.enqueue]
    split <;> rfl
  | deq =>
    cases q <;> rfl
  | clear => rfl

lemma Buffer.applyOp_size_le (b : Buffer) (op : BufOp)
    (h : b.size ≤ b.max_size) : (b.applyOp op).size ≤ (b.applyOp op).max_size := by
  rw [b.applyOp_max_size op]
  obtain ⟨m, q⟩ := b
  cases op with
  | enq p =>
    simp only [Buffer.applyOp, Buffer.enqueue, Buffer.is_full]
    split
    · exact h
    · rename_i hfull
      simp only [Buffer.size, decide_eq_true_eq, not_le] at hfull ⊢
      simp only [List.length_append, List.length_cons, List.length_nil]
      omega
  | deq =>
    cases q with
    | nil => exact h
    | cons p rest =>
      simp only [Buffer.applyOp, Buffer.dequeue, Buffer.size] at h ⊢
      simp only [List.length_cons] at h
      omega
  | clear =>
    simp [Buffer.applyOp, Buffer.clear, Buffer.size]

lemma Buffer.runOps_size_le (ops : List BufOp) (b : Buffer)
    (h : b.size ≤ b.max_size) :
    (b.runOps ops).size ≤ (b.runOps ops).max_size := by
  induction ops generalizing b with
  | nil => exact h
  | cons op rest ih =>
    exact ih (b.applyOp op) (b.applyOp_size_le op h)

lemma Buffer.runOps_max_size (ops : List BufOp) (b : Buffer) :
    (b.runOps ops).max_size = b.max_size := by
  induction ops generalizing b with
  | nil => rfl
  | cons op rest ih =>
    rw [Buffer.runOps, ih, Buffer.applyOp_max_size]

/-- One successful-or-failed queue operation for the FIFO trace (`enqueue` or
`dequeue`; `clear` is excluded, matching the interleavings the FIFO property
quantifies over). -/
inductive QOp where
  | enq (p : Packet)
  | deq
deriving DecidableEq, Repr

/-- Running a sequence of enqueue/dequeue calls on a buffer while recording
the packets accepted by `enqueue` (in order) and the packets returned by
`dequeue` (in order). -/
def Buffer.runTrace (b : Buffer) (acc deqd : List Packet) :
    List QOp → Buffer × List Packet × List Packet
  | [] => (b, acc, deqd)
  | QOp.enq p :: rest =>
    let r := b.enqueue p
    r.1.runTrace (if r.2 then acc ++ [p] else acc) deqd rest
  | QOp.deq :: rest =>
    let r := b.dequeue
    r.1.runTrace acc (deqd ++ r.2.toList) rest

lemma Buffer.runTrace_enq (b : Buffer) (acc deqd : List Packet) (p : Packet)
    (rest : List QOp) :
    b.runTrace acc deqd (QOp.enq p :: rest) =
      if b.is_full then b.runTrace acc deqd rest
      else ({ b with queue := b.queue ++ [p] } : Buffer).runTrace (acc ++ [p]) deqd rest := by
  simp only [Buffer.runTrace, Buffer.enqueue]
  split <;> simp

lemma Buffer.runTrace_deq (b : Buffer) (acc deqd : List Packet)
    (rest : List QOp) :
    b.runTrace acc deqd (QOp.deq :: rest) =
      match b.queue with
      | [] => b.runTrace acc deqd rest
      | p :: q => ({ b with queue := q } : Buffer).runTrace acc (deqd ++ [p]) rest := by
  obtain ⟨m, q⟩ := b
  cases q <;> simp [Buffer.runTrace, Buffer.dequeue]

lemma Buffer.runTrace_fifo (ops : List QOp) (b : Buffer) (acc deqd : List Packet)
    (h : deqd ++ b.queue = acc) :
    (b.runTrace acc deqd ops).2.2 ++ (b.runTrace acc deqd ops).1.queue =
      (b.runTrace acc deqd ops).2.1 := by
  induction ops generalizing b acc deqd with
  | nil => simpa [Buffer.runTrace] using h
  | cons op rest ih =>
    cases op with
    | enq p =>
      rw [Buffer.runTrace_enq]
      split
      · exact ih b acc deqd h
      · exact ih _ _ deqd (by simp [← h])
    | deq =>
      rw [Buffer.runTrace_deq]
      match hq : b.queue with
      | [] => exact ih b acc deqd h
      | p :: q =>
        refine ih _ acc (deqd ++ [p]) ?_
        rw [← h, hq]
        simp

/-- Claim C1: for every capacity and every sequence of enqueue/dequeue/clear
operations run from a freshly constructed buffer, `size` never exceeds
`max_size`; and `enqueue` returns `false` iff the buffer is full at the time
of the call, in which case the queue and size are unchanged, otherwise it
appends the packet and returns `true`. -/
theorem C1_buffer_bound_and_enqueue (m : Nat) (ops : List BufOp)
    (b : Buffer) (p : Packet) :
    ((Buffer.init m).runOps ops).size ≤ m ∧
    ((b.enqueue p).2 = false ↔ b.is_full = true) ∧
    (b.is_full = true → b.enqueue p = (b, false)) ∧
    (b.is_full = false →
      b.enqueue p = ({ b with queue := b.queue ++ [p] }, true)) := by
  refine ⟨?_, ?_, ?_, ?_⟩
  · have h := Buffer.runOps_size_le ops (Buffer.init m) (by simp [Buffer.init, Buffer.size])
    rwa [Buffer.runOps_max_size] at h
  · unfold Buffer.enqueue
    by_cases hf : b.is_full <;> simp [hf]
  · intro hf
    simp [Buffer.enqueue, hf]
  · intro hf
    simp [Buffer.enqueue, hf]

/-- Witness for C1 at a concrete full buffer of capacity 1. -/
theorem C1_buffer_bound_and_enqueue_witness :
    (Buffer.mk 1 [⟨"a", "b", "", "x", []⟩]).is_full = true ∧
    (Buffer.mk 1 [⟨"a", "b", "", "x", []⟩]).enqueue ⟨"a", "b", "", "y", []⟩ =
      (Buffer.mk 1 [⟨"a", "b", "", "x", []⟩], false) :=
  ⟨by decide,
   (C1_buffer_bound_and_enqueue 1 [] (Buffer.mk 1 [⟨"a", "b", "", "x", []⟩])
     ⟨"a", "b", "", "y", []⟩).2.2.1 (by decide)⟩

/-- Claim C8: FIFO order.  After any interleaving of enqueue and dequeue
calls from a fresh buffer, the packets returned by `dequeue` followed by the
packets still queued are exactly the successfully enqueued packets in
acceptance order; and `dequeue` always returns and removes the head (the
oldest packet), or `none` on an empty buffer.  Link state never enters any
`Buffer` operation, so the order is trivially unaffected by link changes. -/
theorem C8_fifo_order (m : Nat) (ops : List QOp) (b : Buffer) :
    ((Buffer.init m).runTrace [] [] ops).2.2 ++
        ((Buffer.init m).runTrace [] [] ops).1.queue =
      ((Buffer.init m).runTrace [] [] ops).2.1 ∧
    b.dequeue = ({ b with queue := b.queue.tail }, b.queue.head?) := by
  constructor
  · exact Buffer.runTrace_fifo ops (Buffer.init m) [] [] rfl
  · obtain ⟨n, q⟩ := b
    cases q <;> simp [Buffer.dequeue]

/-- Claim C2: `receive_packet` on an offline node returns `false` with no hop
appended and no callback; on an online node it first appends exactly this
node's id to the hop list, then either (destination reached) invokes the
delivery callback when one is installed and returns `true`, or else returns
the result of `queue_packet` on the hop-extended packet. -/
theorem C2_receive_packet_spec (n : Node) (p : Packet) :
    (n.is_online = false → n.receive_packet p = ⟨n, p, false, false⟩) ∧
    (n.is_online = true →
      (n.receive_packet p).packet.hops = p.hops ++ [n.node_id] ∧
      (p.destination = n.node_id →
        n.receive_packet p = ⟨n, p.add_hop n.node_id, true, n.has_on_receive⟩) ∧
      (p.destination ≠ n.node_id →
        n.receive_packet p =
          ⟨(n.queue_packet (p.add_hop n.node_id)).1, p.add_hop n.node_id,
            (n.queue_packet (p.add_hop n.node_id)).2, false⟩)) := by
  have hdest : (p.add_hop n.node_id).destination = p.destination := rfl
  constructor
  · intro hoff
    simp [Node.receive_packet, hoff]
  · intro hon
    refine ⟨?_, ?_, ?_⟩
    · by_cases hd : p.destination = n.node_id <;>
        simp [Node.receive_packet, hon, hdest, hd, Packet.add_hop]
    · intro hd
      simp [Node.receive_packet, hon, hdest, hd]
    · intro hd
      simp [Node.receive_packet, hon, hdest, hd]

/-- Witness for C2 at a concrete online relay with a spare buffer slot. -/
theorem C2_receive_packet_spec_witness :
    (Node.mk "R1" "Relay" (Buffer.init 2) true [] false).is_online = true ∧
    ((Node.mk "R1" "Relay" (Buffer.init 2) true [] false).receive_packet
        ⟨"MA", "E", "d", "p1", []⟩).packet.hops = [] ++ ["R1"] :=
  ⟨by decide,
   ((C2_receive_packet_spec (Node.mk "R1" "Relay" (Buffer.init 2) true [] false)
       ⟨"MA", "E", "d", "p1", []⟩).2 (by decide)).1⟩

/-- Claim C9: on an online non-destination node with a full buffer,
`receive_packet` returns `false`, yet the node's id has already been appended
to the packet's hop list — the failure is not atomic with the hop record. -/
theorem C9_hop_recorded_despite_full (n : Node) (p : Packet)
    (hon : n.is_online = true) (hdest : p.destination ≠ n.node_id)
    (hfull : n.buffer.is_full = true) :
    (n.receive_packet p).result = false ∧
    (n.receive_packet p).packet.hops = p.hops ++ [n.node_id] := by
  have hd : (p.add_hop n.node_id).destination = p.destination := rfl
  constructor
  · simp [Node.receive_packet, hon, hd, hdest, Node.queue_packet,
      Buffer.enqueue, hfull]
  · simp [Node.receive_packet, hon, hd, hdest, Packet.add_hop]

/-- Witness for C9: a full (capacity 1) online relay receiving a packet bound
elsewhere. -/
theorem C9_hop_recorded_despite_full_witness :
    ((Node.mk "R1" "Relay" (Buffer.mk 1 [⟨"a", "b", "", "q0", []⟩]) true [] false).receive_packet
        ⟨"MA", "E", "d", "p1", []⟩).result = false ∧
    ((Node.mk "R1" "Relay" (Buffer.mk 1 [⟨"a", "b", "", "q0", []⟩]) true [] false).receive_packet
        ⟨"MA", "E", "d", "p1", []⟩).packet.hops = [] ++ ["R1"] :=
  C9_hop_recorded_despite_full
    (Node.mk "R1" "Relay" (Buffer.mk 1 [⟨"a", "b", "", "q0", []⟩]) true [] false)
    ⟨"MA", "E", "d", "p1", []⟩ (by decide) (by decide) (by decide)

/-- Claim C10: `peek_next_packet` performs no online check — toggling the
online flag never changes its result, which is the buffer's oldest packet —
while `get_next_packet` on an offline node returns `none` and leaves the node
(hence its buffer) unchanged. -/
theorem C10_peek_ignores_online (n : Node) (b : Bool) :
    ({ n with is_online := b } : Node).peek_next_packet = n.buffer.queue.head? ∧
    (n.is_online = false → n.get_next_packet = (n, none)) := by
  constructor
  · rfl
  · intro hoff
    simp [Node.get_next_packet, hoff]

/-- Witness for C10: an offline node holding one packet still peeks it, and
`get_next_packet` yields nothing while leaving the node unchanged. -/
theorem C10_peek_ignores_online_witness :
    ({ Node.mk "V3" "Comms" (Buffer.mk 5 [⟨"V1", "HQ", "", "p", []⟩]) false [] false with
        is_online := false } : Node).peek_next_packet =
      (Buffer.mk 5 [⟨"V1", "HQ", "", "p", []⟩]).queue.head? ∧
    ((Node.mk "V3" "Comms" (Buffer.mk 5 [⟨"V1", "HQ", "", "p", []⟩]) false [] false).is_online = false →
      (Node.mk "V3" "Comms" (Buffer.mk 5 [⟨"V1", "HQ", "", "p", []⟩]) false [] false).get_next_packet =
        (Node.mk "V3" "Comms" (Buffer.mk 5 [⟨"V1", "HQ", "", "p", []⟩]) false [] false, none)) := by
  have h := C10_peek_ignores_online
    (Node.mk "V3" "Comms" (Buffer.mk 5 [⟨"V1", "HQ", "", "p", []⟩]) false [] false) false
  exact ⟨h.1, fun _ => h.2 rfl⟩

/-!
Embedding of `SpaceScenario` (`src/space.py`).  Only the engine state is
modelled (the `OrbitalView` widget and all drawing are presentation).  The
set `_transmitting_links` together with the packets carried by the spawned
`_animate_transmission` worker tasks is modelled as the list `inflight` of
(link index, packet) pairs; a worker is modelled as registering its link at
dequeue time and `finishTransmission` models the tail of the worker (the
buffer/counter mutation after the animation and the `discard`). -/

/-- Engine state of `SpaceScenario`: the six nodes of `_setup_network`, the
`link_visible` list (one field per index), the in-flight transmissions, the
attack flags and the counters. -/
structure SpaceState where
  ma : Node
  ma_sat : Node
  mo_sat1 : Node
  mo_sat2 : Node
  e_sat : Node
  e : Node
  visible0 : Bool
  visible1 : Bool
  visible2 : Bool
  visible3 : Bool
  visible4 : Bool
  visible5 : Bool
  inflight : List (Nat × Packet)
  blackhole_active : Bool
  antenna_outage_active : Bool
  packets_sent : Nat
  packets_delivered : Nat
  packets_dropped : Nat
deriving DecidableEq, Repr

/-- Lookup in the `self.nodes` dict (keys fixed by `_setup_network`). -/
def SpaceState.getNode (s : SpaceState) (id : String) : Node :=
  if id = "MA" then s.ma
  else if id = "MA-SAT" then s.ma_sat
  else if id = "MO-SAT1" then s.mo_sat1
  else if id = "MO-SAT2" then s.mo_sat2
  else if id = "E-SAT" then s.e_sat
  else s.e

/-- In-place mutation of an entry of `self.nodes`. -/
def SpaceState.setNode (s : SpaceState) (id : String) (n : Node) : SpaceState :=
  if id = "MA" then { s with ma := n }
  else if id = "MA-SAT" then { s with ma_sat := n }
  else if id = "MO-SAT1" then { s with mo_sat1 := n }
  else if id = "MO-SAT2" then { s with mo_sat2 := n }
  else if id = "E-SAT" then { s with e_sat := n }
  else { s with e := n }

/-- The set `self._transmitting_links`. -/
def SpaceState.transmittingLinks (s : SpaceState) : List Nat :=
  s.inflight.map Prod.fst

/-- The `routes` list built at the top of `_process_all_transmissions`. -/
def SpaceState.routes (s : SpaceState) : List (String × Nat × String × Bool) :=
  [("MA", 0, "MA-SAT", s.visible0),
   ("MA-SAT", 1, "MO-SAT1", s.visible1),
   ("MA-SAT", 2, "MO-SAT2", s.visible2),
   ("MO-SAT1", 3, "E-SAT", s.visible3),
   ("MO-SAT2", 4, "E-SAT", s.visible4),
   ("E-SAT", 5, "E", s.visible5)]

/-- One iteration of the loop of `_process_all_transmissions`: skip when the
link is invisible, already transmitting, the source buffer is empty, or the
target (unless it is the final sink `E`) is full; otherwise dequeue one
packet and start the transmission on this link. -/
def SpaceState.processRouteArgs (s : SpaceState) (source_id : String)
    (link_idx : Nat) (target_id : String) (is_visible : Bool) : SpaceState :=
  if is_visible = false ∨ link_idx ∈ s.transmittingLinks then s
  else if (s.getNode source_id).buffer_size = 0 then s
  else if target_id ≠ "E" ∧ (s.getNode target_id).buffer.is_full = true then s
  else
    match (s.getNode source_id).get_next_packet with
    | (src2, none) => s.setNode source_id src2
    | (src2, some p) =>
      { s.setNode source_id src2 with inflight := s.inflight ++ [(link_idx, p)] }

/-- Tuple form of `processRouteArgs`, as consumed by the route loop. -/
def SpaceState.processRoute (s : SpaceState) (r : String × Nat × String × Bool) :
    SpaceState :=
  s.processRouteArgs r.1 r.2.1 r.2.2.1 r.2.2.2

/-- The method `SpaceScenario._process_all_transmissions`. -/
def SpaceState.process_all_transmissions (s : SpaceState) : SpaceState :=
  s.routes.foldl SpaceState.processRoute s

/-- Completion of `_animate_transmission` for one in-flight (link, packet)
pair: a blackholed `MO-SAT1` arrival only bumps the dropped counter, an
arrival at `E` bumps the delivered counter, any other arrival is offered to
the target's buffer via `queue_packet`; finally the link leaves the
transmitting set. -/
def SpaceState.finishTransmission (s : SpaceState) (link_idx : Nat)
    (target_id : String) (p : Packet) : SpaceState :=
  let s2 :=
    if target_id = "MO-SAT1" ∧ s.blackhole_active = true then
      { s with packets_dropped := s.packets_dropped + 1 }
    else if target_id = "E" then
      { s with packets_delivered := s.packets_delivered + 1 }
    else s.setNode target_id ((s.getNode target_id).queue_packet p).1
  { s2 with inflight := s2.inflight.filter (fun t => t.1 != link_idx) }

/-- The method `SpaceScenario.toggle_blackhole_attack`: flip the flag and, on
activation, clear the buffer already held at `MO-SAT1`. -/
def SpaceState.toggle_blackhole_attack (s : SpaceState) : SpaceState :=
  let s1 := { s with blackhole_active := !s.blackhole_active }
  if s1.blackhole_active then
    { s1 with mo_sat1 := { s1.mo_sat1 with buffer := s1.mo_sat1.buffer.clear.1 } }
  else s1

/-- The method `SpaceScenario.action_send_packet`: refuse silently when the
Mars buffer is full, else enqueue a fresh packet bound for `E` and count it
as sent when the enqueue succeeded.  The `uuid` packet id is passed in. -/
def SpaceState.action_send_packet (s : SpaceState) (packet_id : String) :
    SpaceState :=
  if s.ma.buffer.is_full = false then
    let p : Packet := ⟨"MA", "E", "Data-" ++ toString s.packets_sent, packet_id, []⟩
    let q := s.ma.queue_packet p
    let s2 := { s with ma := q.1 }
    if q.2 then { s2 with packets_sent := s2.packets_sent + 1 } else s2
  else s

/-!
Embedding of `MilitaryScenario` (`src/military.py`).  The single worker task
spawned by `_start_transfer` / `_start_hq_delivery` is modelled by the
`inflight` list (the code's `_transfer_in_progress` flag is kept as its own
field, exactly as in the source); `complete_transfer` models the tail of
`_do_transfer_animation` / `_do_hq_delivery_animation`. -/

/-- One spawned convoy transfer: its destination id (`"HQ"` for the delivery
worker), the link index used for display, and the carried packet. -/
structure MilTransfer where
  to_id : String
  link_index : Nat
  packet : Packet
deriving DecidableEq, Repr

/-- Engine state of `MilitaryScenario`: the four nodes of `_setup_network`,
the jamming flag, the transfer flag and worker list, the `_range_states` and
`_range_timers` entries, and the counters. -/
structure MilState where
  v1 : Node
  v2 : Node
  v3 : Node
  hq : Node
  v3_online : Bool
  transfer_in_progress : Bool
  inflight : List MilTransfer
  range_v1_v2 : Bool
  range_v2_v3 : Bool
  range_v3_cp : Bool
  timer_v3_cp : Nat
  packets_created : Nat
  packets_delivered : Nat
deriving DecidableEq, Repr

/-- Lookup in the `self.vehicles` dict. -/
def MilState.getVehicle (s : MilState) (id : String) : Node :=
  if id = "V1" then s.v1
  else if id = "V2" then s.v2
  else if id = "V3" then s.v3
  else s.hq

/-- In-place mutation of an entry of `self.vehicles`. -/
def MilState.setVehicle (s : MilState) (id : String) (n : Node) : MilState :=
  if id = "V1" then { s with v1 := n }
  else if id = "V2" then { s with v2 := n }
  else if id = "V3" then { s with v3 := n }
  else { s with hq := n }

/-- The method `MilitaryScenario._start_transfer`: dequeue from the source;
when a packet came out, raise the global transfer flag and spawn the
animation worker carrying it. -/
def MilState.start_transfer (s : MilState) (from_id to_id : String)
    (link_index : Nat) : MilState :=
  match (s.getVehicle from_id).get_next_packet with
  | (src2, none) => s.setVehicle from_id src2
  | (src2, some p) =>
    { s.setVehicle from_id src2 with
      transfer_in_progress := true
      inflight := s.inflight ++ [⟨to_id, link_index, p⟩] }

/-- The method `MilitaryScenario._start_hq_delivery`: like `_start_transfer`
from V3, but the worker delivers to HQ instead of buffering. -/
def MilState.start_hq_delivery (s : MilState) : MilState :=
  match s.v3.get_next_packet with
  | (v3n, none) => { s with v3 := v3n }
  | (v3n, some p) =>
    { s with
      v3 := v3n
      transfer_in_progress := true
      inflight := s.inflight ++ [⟨"HQ", 2, p⟩] }

/-- The method `MilitaryScenario._process_forwarding`: serialized by the
global transfer flag, then the three links are tried in declaration order.
Note that no branch inspects the destination buffer's occupancy. -/
def MilState.process_forwarding (s : MilState) : MilState :=
  if s.transfer_in_progress = true then s
  else if s.range_v1_v2 = true ∧ 0 < s.v1.buffer_size then
    s.start_transfer "V1" "V2" 0
  else if s.range_v2_v3 = true ∧ s.v3_online = true ∧ 0 < s.v2.buffer_size then
    s.start_transfer "V2" "V3" 1
  else if s.range_v3_cp = true ∧ s.v3_online = true ∧ 0 < s.v3.buffer_size then
    s.start_hq_delivery
  else s

/-- Completion of the spawned worker (tail of `_do_transfer_animation` or
`_do_hq_delivery_animation`): HQ deliveries bump the delivered counter,
other targets are offered the packet via `queue_packet` (the boolean result
is ignored by the code); the transfer flag drops in the `finally` block. -/
def MilState.complete_transfer (s : MilState) : MilState :=
  match s.inflight with
  | [] => s
  | t :: rest =>
    if t.to_id = "HQ" then
      { s with
        packets_delivered := s.packets_delivered + 1
        transfer_in_progress := false
        inflight := rest }
    else
      { s.setVehicle t.to_id ((s.getVehicle t.to_id).queue_packet t.packet).1 with
        transfer_in_progress := false
        inflight := rest }

/-- The method `MilitaryScenario.action_send_packet`: enqueue a fresh packet
at V1 (result ignored) and increment `packets_created` unconditionally. -/
def MilState.action_send_packet (s : MilState) (packet_id : String) : MilState :=
  let p : Packet := ⟨"V1", "HQ", "Data-" ++ toString s.packets_created, packet_id, []⟩
  { s with
    v1 := (s.v1.queue_packet p).1
    packets_created := s.packets_created + 1 }

/-- The `_range_states` dict of the convoy scenario. -/
structure RangeStates where
  v1_v2 : Bool
  v2_v3 : Bool
  v3_cp : Bool
deriving DecidableEq, Repr

/-- The method `MilitaryScenario._update_range_states`.  The value of the
call `random.randint(40, 60)` on Python's hidden global generator is made an
explicit oracle argument `draw`; `timer_v3_cp` is the current value of
`_range_timers` for the V3-HQ link.  Returns the new range states and the
new timer. -/
def update_range_states (v3_online : Bool) (rs : RangeStates)
    (timer_v3_cp : Nat) (draw : Nat) : RangeStates × Nat :=
  let rs1 : RangeStates := { rs with v1_v2 := true, v2_v3 := v3_online }
  let t := timer_v3_cp + 1
  if v3_online then
    if draw < t then ({ rs1 with v3_cp := !rs1.v3_cp }, 0)
    else (rs1, t)
  else ({ rs1 with v3_cp := false }, t)

/-- The link-visibility computation at the top of
`SpaceScenario._simulation_tick`, as a function of the orbit phase and the
antenna fault flag.  Angles and thresholds are modelled over `ℚ` and the
trigonometric `math.cos` is an abstract parameter `c` (its values are
irrelevant to every property stated about this model). -/
def space_visibility (c : ℚ → ℚ) (phase : ℚ) (antenna_outage_active : Bool) :
    List Bool :=
  let mars_sat_angle := phase * 1.5
  let moon_sat1_angle := phase * 2
  let moon_sat2_angle := phase * 2 + 3.141592653589793
  let earth_sat_angle := phase * 1.8 + 0.5
  let mars_sat_facing_moon := decide ((0.3 : ℚ) < c mars_sat_angle)
  let moon_sat1_facing_mars := decide (c moon_sat1_angle < -0.2)
  let moon_sat2_facing_mars := decide (c moon_sat2_angle < -0.2)
  let moon_sat1_facing_earth := decide ((0.3 : ℚ) < c moon_sat1_angle)
  let moon_sat2_facing_earth := decide ((0.3 : ℚ) < c moon_sat2_angle)
  let earth_sat_facing_moon := decide (c earth_sat_angle < -0.2)
  [decide ((0.2 : ℚ) < c mars_sat_angle),
   mars_sat_facing_moon && moon_sat1_facing_mars,
   mars_sat_facing_moon && moon_sat2_facing_mars,
   moon_sat1_facing_earth && earth_sat_facing_moon,
   moon_sat2_facing_earth && earth_sat_facing_moon,
   if antenna_outage_active then false else decide (c earth_sat_angle < 0.2)]

lemma SpaceState.setNode_inflight (s : SpaceState) (id : String) (n : Node) :
    (s.setNode id n).inflight = s.inflight := by
  unfold SpaceState.setNode
  split_ifs <;> rfl

lemma SpaceState.processRoute_skip (s : SpaceState) (source_id : String)
    (link_idx : Nat) (target_id : String) (vis : Bool)
    (h : vis = false ∨ link_idx ∈ s.transmittingLinks ∨
      (s.getNode source_id).buffer_size = 0 ∨
      (target_id ≠ "E" ∧ (s.getNode target_id).buffer.is_full = true)) :
    s.processRoute (source_id, link_idx, target_id, vis) = s := by
  show s.processRouteArgs source_id link_idx target_id vis = s
  unfold SpaceState.processRouteArgs
  rcases h with h | h | h | h
  · simp [h]
  · simp [h]
  · split
    · rfl
    · simp [h]
  · split
    · rfl
    · split
      · rfl
      · simp [h.1, h.2]

lemma SpaceState.processRoute_nodup (s : SpaceState)
    (r : String × Nat × String × Bool) (h : s.transmittingLinks.Nodup) :
    (s.processRoute r).transmittingLinks.Nodup := by
  obtain ⟨source_id, link_idx, target_id, vis⟩ := r
  show (s.processRouteArgs source_id link_idx target_id vis).transmittingLinks.Nodup
  unfold SpaceState.processRouteArgs
  split
  · exact h
  · rename_i hc1
    split
    · exact h
    · split
      · exact h
      · split
        · rename_i src2 heq
          simpa [SpaceState.transmittingLinks, SpaceState.setNode_inflight] using h
        · rename_i src2 p heq
          have hnot : link_idx ∉ s.transmittingLinks := by
            intro hmem
            exact hc1 (Or.inr hmem)
          simp only [SpaceState.transmittingLinks, List.map_append] at h ⊢
          simp only [List.map_cons, List.map_nil]
          rw [List.nodup_append]
          refine ⟨h, List.nodup_singleton _, ?_⟩
          intro a ha hb
          simp at hb
          subst hb
          exact hnot ha

lemma SpaceState.foldl_processRoute_nodup
    (rs : List (String × Nat × String × Bool)) (s : SpaceState)
    (h : s.transmittingLinks.Nodup) :
    (rs.foldl SpaceState.processRoute s).transmittingLinks.Nodup := by
  induction rs generalizing s with
  | nil => exact h
  | cons r rest ih =>
    exact ih (s.processRoute r) (s.processRoute_nodup r h)

lemma SpaceState.finishTransmission_nodup (s : SpaceState) (l : Nat)
    (tid : String) (p : Packet) (h : s.transmittingLinks.Nodup) :
    (s.finishTransmission l tid p).transmittingLinks.Nodup := by
  unfold SpaceState.finishTransmission
  have key : ∀ fl : List (Nat × Packet), (List.map Prod.fst fl).Nodup →
      (List.map Prod.fst (fl.filter (fun t => t.1 != l))).Nodup := by
    intro fl hfl
    exact hfl.sublist ((List.filter_sublist fl).map Prod.fst)
  split
  · exact key s.inflight h
  · split
    · exact key s.inflight h
    · simp only [SpaceState.transmittingLinks, SpaceState.setNode_inflight] at h ⊢
      exact key s.inflight h

lemma MilState.setVehicle_inflight (s : MilState) (id : String) (n : Node) :
    (s.setVehicle id n).inflight = s.inflight := by
  unfold MilState.setVehicle
  split_ifs <;> rfl

lemma MilState.setVehicle_tip (s : MilState) (id : String) (n : Node) :
    (s.setVehicle id n).transfer_in_progress = s.transfer_in_progress := by
  unfold MilState.setVehicle
  split_ifs <;> rfl

/-- The convoy's serialization invariant: at most one spawned transfer worker
exists, and the `_transfer_in_progress` flag is raised exactly when one
does. -/
def MilState.serialized (s : MilState) : Prop :=
  s.inflight.length ≤ 1 ∧ (s.transfer_in_progress = true ↔ s.inflight ≠ [])

lemma MilState.start_transfer_serialized (s : MilState) (a b : String)
    (l : Nat) (hfl : s.transfer_in_progress = false) (hin : s.inflight = []) :
    (s.start_transfer a b l).serialized := by
  unfold MilState.start_transfer
  split
  · refine ⟨?_, ?_⟩
    · simp [MilState.setVehicle_inflight, hin]
    · simp [MilState.setVehicle_inflight, MilState.setVehicle_tip, hfl, hin]
  · refine ⟨?_, ?_⟩
    · simp [hin]
    · simp [hin]

lemma MilState.start_hq_delivery_serialized (s : MilState)
    (hfl : s.transfer_in_progress = false) (hin : s.inflight = []) :
    s.start_hq_delivery.serialized := by
  unfold MilState.start_hq_delivery
  split
  · exact ⟨by simp [hin], by simp [hfl, hin]⟩
  · exact ⟨by simp [hin], by simp [hin]⟩

lemma MilState.process_forwarding_serialized (s : MilState)
    (h : s.serialized) : s.process_forwarding.serialized := by
  unfold MilState.process_forwarding
  split
  · exact h
  · rename_i hflag
    have hfl : s.transfer_in_progress = false := by
      cases hb : s.transfer_in_progress
      · rfl
      · exact absurd hb hflag
    have hin : s.inflight = [] := by
      by_contra hne
      exact hflag (h.2.mpr hne)
    split
    · exact s.start_transfer_serialized "V1" "V2" 0 hfl hin
    · split
      · exact s.start_transfer_serialized "V2" "V3" 1 hfl hin
      · split
        · exact s.start_hq_delivery_serialized hfl hin
        · exact h

lemma MilState.complete_transfer_serialized (s : MilState)
    (h : s.serialized) : s.complete_transfer.serialized := by
  unfold MilState.complete_transfer
  split
  · exact h
  · rename_i t rest heq
    have hrest : rest = [] := by
      have hlen := h.1
      rw [heq] at hlen
      simp only [List.length_cons] at hlen
      have : rest.length = 0 := by omega
      exact List.eq_nil_of_length_eq_zero this
    subst hrest
    split
    · exact ⟨by simp, by simp⟩
    · refine ⟨by simp, by simp⟩

/-- A packet used to build concrete convoy states. -/
def cPkt : Packet := ⟨"V1", "HQ", "d", "k", []⟩

/-- A concrete convoy state: V1 holds one packet, V2's buffer is completely
full (100 of 100), the V1-V2 link is in range, and no transfer is under
way.  All of this is reachable by repeated `action_send_packet` and
forwarding steps. -/
def milFullDest : MilState :=
  { v1 := ⟨"V1", "Lead Vehicle", ⟨100, [cPkt]⟩, true, [("V2", true)], false⟩
    v2 := ⟨"V2", "Cargo Vehicle", ⟨100, List.replicate 100 cPkt⟩, true,
      [("V1", true), ("V3", true)], false⟩
    v3 := ⟨"V3", "Comms Vehicle", ⟨100, []⟩, true, [("V2", true), ("HQ", false)], false⟩
    hq := ⟨"HQ", "Head Quarter", ⟨100, []⟩, true, [], false⟩
    v3_online := true
    transfer_in_progress := false
    inflight := []
    range_v1_v2 := true
    range_v2_v3 := true
    range_v3_cp := false
    timer_v3_cp := 0
    packets_created := 101
    packets_delivered := 0 }

/-- A packet used to build concrete space states. -/
def spacePkt : Packet := ⟨"MA", "E", "d", "w", []⟩

/-- A concrete space state: the Mars buffer is full (5 of 5), Moon satellite
1 holds two buffered packets, no attack is active and nothing is in
flight. -/
def spaceW : SpaceState :=
  { ma := ⟨"MA", "Mars", ⟨5, List.replicate 5 spacePkt⟩, true, [], false⟩
    ma_sat := ⟨"MA-SAT", "Mars Satellite", ⟨5, []⟩, true, [], false⟩
    mo_sat1 := ⟨"MO-SAT1", "Moon Satellite 1 (L1)", ⟨5, [spacePkt, spacePkt]⟩,
      true, [], false⟩
    mo_sat2 := ⟨"MO-SAT2", "Moon Satellite 2 (L2)", ⟨5, []⟩, true, [], false⟩
    e_sat := ⟨"E-SAT", "Earth Satellite", ⟨5, []⟩, true, [], false⟩
    e := ⟨"E", "Earth", ⟨5, []⟩, true, [], false⟩
    visible0 := true
    visible1 := false
    visible2 := false
    visible3 := false
    visible4 := false
    visible5 := true
    inflight := []
    blackhole_active := false
    antenna_outage_active := false
    packets_sent := 5
    packets_delivered := 0
    packets_dropped := 0 }

/-- Counterexample to claim C3 as stated: in the convoy scenario's forwarding
step, a packet is dequeued from V1 although the destination V2's buffer is
full at send time — `_process_forwarding` never inspects the destination
buffer. -/
theorem C3_counterexample :
    milFullDest.v2.buffer.is_full = true ∧
    milFullDest.v1.buffer_size = 1 ∧
    milFullDest.process_forwarding.v1.buffer_size = 0 ∧
    milFullDest.process_forwarding.inflight.length = 1 := by decide

/-- Claim C3 amended: the space scenario's per-tick forwarding skips a link
(source buffer untouched) whenever the link is invisible, already
transmitting, the source buffer is empty, or the destination is not the
final sink `E` and its buffer is full; the convoy scenario's forwarding
skips when a transfer is already in progress, but dequeues from the source
whenever its link is in range and the source is non-empty, regardless of the
destination buffer's occupancy. -/
theorem C3_forwarding_skips (s : SpaceState) (source_id : String)
    (link_idx : Nat) (target_id : String) (vis : Bool) (t : MilState) :
    (vis = false → s.processRoute (source_id, link_idx, target_id, vis) = s) ∧
    (link_idx ∈ s.transmittingLinks →
      s.processRoute (source_id, link_idx, target_id, vis) = s) ∧
    ((s.getNode source_id).buffer_size = 0 →
      s.processRoute (source_id, link_idx, target_id, vis) = s) ∧
    (target_id ≠ "E" → (s.getNode target_id).buffer.is_full = true →
      s.processRoute (source_id, link_idx, target_id, vis) = s) ∧
    (t.transfer_in_progress = true → t.process_forwarding = t) ∧
    (t.transfer_in_progress = false → t.range_v1_v2 = true →
      0 < t.v1.buffer_size → t.process_forwarding = t.start_transfer "V1" "V2" 0) := by
  refine ⟨?_, ?_, ?_, ?_, ?_, ?_⟩
  · intro h
    exact s.processRoute_skip source_id link_idx target_id vis (Or.inl h)
  · intro h
    exact s.processRoute_skip source_id link_idx target_id vis (Or.inr (Or.inl h))
  · intro h
    exact s.processRoute_skip source_id link_idx target_id vis (Or.inr (Or.inr (Or.inl h)))
  · intro h1 h2
    exact s.processRoute_skip source_id link_idx target_id vis
      (Or.inr (Or.inr (Or.inr ⟨h1, h2⟩)))
  · intro h
    unfold MilState.process_forwarding
    simp [h]
  · intro h1 h2 h3
    unfold MilState.process_forwarding
    simp [h1, h2, h3]

/-- Witness for the amended C3: an invisible link and a transfer-in-progress
state are both skipped. -/
theorem C3_forwarding_skips_witness :
    spaceW.processRoute ("MA", 0, "MA-SAT", false) = spaceW :=
  (C3_forwarding_skips spaceW "MA" 0 "MA-SAT" false milFullDest).1 rfl

/-- Counterexample to claim C4 as stated: with an identical tick-derived
timer (50) and identical fault flags (V3 online), two runs of
`_update_range_states` disagree on the V3-HQ visibility because the toggle
interval comes from Python's hidden global `random.randint(40, 60)` —
modelled by the explicit oracle argument, here 40 versus 60. -/
theorem C4_counterexample :
    (update_range_states true ⟨true, true, false⟩ 50 40).1.v3_cp ≠
      (update_range_states true ⟨true, true, false⟩ 50 60).1.v3_cp := by decide

/-- Claim C4 amended: in the space scenario the visibility vector is a
deterministic function of the orbit phase and the antenna fault flag (equal
inputs give equal vectors); in the convoy scenario the V1-V2 and V2-V3
visibilities are determined by the V3-online fault flag alone, but the V3-HQ
visibility also depends on the unseeded global random draw (and on its own
previous value), so identical tick counts and fault flags can yield
different vectors. -/
theorem C4_visibility_determinism (c : ℚ → ℚ) (p1 p2 : ℚ) (a1 a2 : Bool)
    (v3on : Bool) (rs : RangeStates) (t d : Nat) :
    (p1 = p2 → a1 = a2 → space_visibility c p1 a1 = space_visibility c p2 a2) ∧
    (update_range_states v3on rs t d).1.v1_v2 = true ∧
    (update_range_states v3on rs t d).1.v2_v3 = v3on ∧
    (update_range_states true ⟨true, true, false⟩ 50 40).1.v3_cp ≠
      (update_range_states true ⟨true, true, false⟩ 50 60).1.v3_cp := by
  refine ⟨?_, ?_, ?_, by decide⟩
  · intro hp ha
    rw [hp, ha]
  · simp only [update_range_states]
    split_ifs <;> rfl
  · simp only [update_range_states]
    split_ifs <;> rfl

/-- Witness for the amended C4 at a concrete abstract-cosine and phase. -/
theorem C4_visibility_determinism_witness :
    space_visibility (fun _ => 0) 1 true = space_visibility (fun _ => 0) 1 true ∧
    (update_range_states true ⟨true, true, false⟩ 0 40).1.v1_v2 = true :=
  ⟨(C4_visibility_determinism (fun _ => 0) 1 1 true true true
      ⟨true, true, false⟩ 0 40).1 rfl rfl,
   (C4_visibility_determinism (fun _ => 0) 1 1 true true true
      ⟨true, true, false⟩ 0 40).2.1⟩

/-- Claim C5: per-link exclusivity in the space scenario — the busy-link
list never acquires a duplicate link index, neither across a whole tick's
route processing nor on a transmission's completion — and the convoy's
serialized policy keeps at most one transfer in flight system-wide, with
eligible links tried in declaration order: V1-V2 first, then V2-V3, then
V3-HQ. -/
theorem C5_transmission_exclusivity (s : SpaceState) (l : Nat) (tid : String)
    (p : Packet) (t : MilState) :
    (s.transmittingLinks.Nodup →
      s.process_all_transmissions.transmittingLinks.Nodup ∧
      (s.finishTransmission l tid p).transmittingLinks.Nodup) ∧
    (t.serialized →
      t.process_forwarding.serialized ∧ t.complete_transfer.serialized) ∧
    (t.transfer_in_progress = false → t.range_v1_v2 = true →
      0 < t.v1.buffer_size →
      t.process_forwarding = t.start_transfer "V1" "V2" 0) ∧
    (t.transfer_in_progress = false →
      ¬(t.range_v1_v2 = true ∧ 0 < t.v1.buffer_size) →
      t.range_v2_v3 = true → t.v3_online = true → 0 < t.v2.buffer_size →
      t.process_forwarding = t.start_transfer "V2" "V3" 1) ∧
    (t.transfer_in_progress = false →
      ¬(t.range_v1_v2 = true ∧ 0 < t.v1.buffer_size) →
      ¬(t.range_v2_v3 = true ∧ t.v3_online = true ∧ 0 < t.v2.buffer_size) →
      t.range_v3_cp = true → t.v3_online = true → 0 < t.v3.buffer_size →
      t.process_forwarding = t.start_hq_delivery) := by
  refine ⟨?_, ?_, ?_, ?_, ?_⟩
  · intro h
    exact ⟨SpaceState.foldl_processRoute_nodup s.routes s h,
      s.finishTransmission_nodup l tid p h⟩
  · intro h
    exact ⟨t.process_forwarding_serialized h, t.complete_transfer_serialized h⟩
  · intro h1 h2 h3
    unfold MilState.process_forwarding
    rw [if_neg (by simp [h1]), if_pos ⟨h2, h3⟩]
  · intro h1 hn h2 h3 h4
    unfold MilState.process_forwarding
    rw [if_neg (by simp [h1]), if_neg hn, if_pos ⟨h2, h3, h4⟩]
  · intro h1 hn1 hn2 h2 h3 h4
    unfold MilState.process_forwarding
    rw [if_neg (by simp [h1]), if_neg hn1, if_neg hn2, if_pos ⟨h2, h3, h4⟩]

/-- Witness for C5: concrete space and convoy states processed one tick. -/
theorem C5_transmission_exclusivity_witness :
    spaceW.process_all_transmissions.transmittingLinks.Nodup ∧
    milFullDest.process_forwarding.serialized :=
  ⟨((C5_transmission_exclusivity spaceW 0 "E" spacePkt milFullDest).1
      (by decide)).1,
   ((C5_transmission_exclusivity spaceW 0 "E" spacePkt milFullDest).2.1
      ⟨by decide, by decide⟩).1⟩

/-- Claim C6: activating the blackhole clears MO-SAT1's buffered packets
without touching the dropped counter; while active, a transmission
completing into MO-SAT1 increments the dropped counter by exactly one and
never enqueues the packet; deactivating only clears the flag — it restores
no packets and changes no buffer or counter. -/
theorem C6_blackhole_attack (s : SpaceState) (l : Nat) (p : Packet) :
    (s.blackhole_active = false →
      s.toggle_blackhole_attack.blackhole_active = true ∧
      s.toggle_blackhole_attack.mo_sat1.buffer.queue = [] ∧
      s.toggle_blackhole_attack.packets_dropped = s.packets_dropped) ∧
    (s.blackhole_active = true →
      (s.finishTransmission l "MO-SAT1" p).packets_dropped = s.packets_dropped + 1 ∧
      (s.finishTransmission l "MO-SAT1" p).mo_sat1 = s.mo_sat1) ∧
    (s.blackhole_active = true →
      s.toggle_blackhole_attack.blackhole_active = false ∧
      s.toggle_blackhole_attack.mo_sat1 = s.mo_sat1 ∧
      s.toggle_blackhole_attack.ma_sat = s.ma_sat ∧
      s.toggle_blackhole_attack.packets_dropped = s.packets_dropped ∧
      s.toggle_blackhole_attack.packets_delivered = s.packets_delivered) := by
  refine ⟨?_, ?_, ?_⟩
  · intro h
    simp [SpaceState.toggle_blackhole_attack, h, Buffer.clear]
  · intro h
    constructor <;> simp [SpaceState.finishTransmission, h]
  · intro h
    simp [SpaceState.toggle_blackhole_attack, h]

/-- Witness for C6: activating the blackhole on a relay holding two buffered
packets clears both and leaves the dropped counter alone. -/
theorem C6_blackhole_attack_witness :
    spaceW.mo_sat1.buffer_size = 2 ∧
    spaceW.toggle_blackhole_attack.blackhole_active = true ∧
    spaceW.toggle_blackhole_attack.mo_sat1.buffer.queue = [] ∧
    spaceW.toggle_blackhole_attack.packets_dropped = spaceW.packets_dropped := by
  have h := (C6_blackhole_attack spaceW 3 spacePkt).1 (by decide)
  exact ⟨by decide, h.1, h.2.1, h.2.2⟩

/-- A concrete convoy state whose V1 (source) buffer is completely full. -/
def milFullSource : MilState :=
  { v1 := ⟨"V1", "Lead Vehicle", ⟨100, List.replicate 100 cPkt⟩, true,
      [("V2", true)], false⟩
    v2 := ⟨"V2", "Cargo Vehicle", ⟨100, []⟩, true,
      [("V1", true), ("V3", true)], false⟩
    v3 := ⟨"V3", "Comms Vehicle", ⟨100, []⟩, true, [("V2", true), ("HQ", false)], false⟩
    hq := ⟨"HQ", "Head Quarter", ⟨100, []⟩, true, [], false⟩
    v3_online := true
    transfer_in_progress := false
    inflight := []
    range_v1_v2 := true
    range_v2_v3 := true
    range_v3_cp := false
    timer_v3_cp := 0
    packets_created := 100
    packets_delivered := 0 }

/-- Counterexample to claim C7 as stated: injecting at V1 in the convoy
scenario while the source buffer is full adds no packet, but the created
counter is incremented on the failed injection. -/
theorem C7_counterexample :
    milFullSource.v1.buffer.is_full = true ∧
    (milFullSource.action_send_packet "u").v1.buffer.queue =
      milFullSource.v1.buffer.queue ∧
    (milFullSource.action_send_packet "u").packets_created =
      milFullSource.packets_created + 1 := by decide

lemma Node.queue_packet_full (n : Node) (p : Packet)
    (h : n.buffer.is_full = true) : n.queue_packet p = (n, false) := by
  unfold Node.queue_packet
  by_cases hon : n.is_online = true
  · rw [if_pos hon]
    have he : n.buffer.enqueue p = (n.buffer, false) := by
      simp [Buffer.enqueue, h]
    rw [he]
  · rw [if_neg hon]

/-- Claim C7 amended: in the space scenario, injecting at a full Mars buffer
leaves the entire state unchanged (no packet added, sent counter untouched);
in the convoy scenario, injecting at a full V1 buffer adds no packet and
leaves V1 unchanged, but `packets_created` is incremented regardless.  In
both scenarios the failure is silent — no explicit error value is
surfaced. -/
theorem C7_inject_on_full (s : SpaceState) (t : MilState) (pid pid2 : String) :
    (s.ma.buffer.is_full = true → s.action_send_packet pid = s) ∧
    (t.v1.buffer.is_full = true →
      (t.action_send_packet pid2).v1 = t.v1 ∧
      (t.action_send_packet pid2).packets_created = t.packets_created + 1) := by
  constructor
  · intro h
    simp [SpaceState.action_send_packet, h]
  · intro h
    refine ⟨?_, rfl⟩
    simp only [MilState.action_send_packet]
    rw [Node.queue_packet_full t.v1 _ h]

/-- Witness for the amended C7: the concrete full states of both
scenarios. -/
theorem C7_inject_on_full_witness :
    spaceW.ma.buffer.is_full = true ∧
    spaceW.action_send_packet "w2" = spaceW :=
  ⟨by decide, (C7_inject_on_full spaceW milFullSource "w2" "u").1 (by decide)⟩

end DTN
